import Mathlib

/-!
Shallow embedding of the tuition payment status derivation of the
RegistroAcademico repository, together with the dashboard aggregation
statistics. Monetary amounts and grades are modelled as rationals, the
exact-decimal reading of the DECIMAL columns the store returns. Student
identifiers are strings. The three call sites that re-implement the
status logic inline (per-student detail view, payments list view,
dashboard aggregate stats) are each embedded separately, faithful to
their own source text.
-/

namespace RegistroAcademico

/-- The derived payment classification. The source uses the string labels
"Paid" / "Partial Payment" / "Unpaid" (with Spanish variants in one type
annotation); the classification itself is what matters here. -/
inductive PaymentStatus where
  | Paid
  | PartialPayment
  | Unpaid
deriving DecidableEq

/-- A student row as the payment views read it: identifier and the
total_tuition column. -/
structure Student where
  id : String
  total_tuition : ℚ
deriving DecidableEq

/-- A payment row as the payment views read it: the student_id foreign
key and the amount column. -/
structure Payment where
  student_id : String
  amount : ℚ
deriving DecidableEq

/-- StudentDetail.tsx line 111:
`payments.reduce((sum, payment) => sum + Number(payment.amount), 0)`,
applied to the amounts of the payments fetched for one student. -/
def totalPaid (payments : List ℚ) : ℚ :=
  payments.foldl (fun sum payment => sum + payment) 0

/-- StudentDetail.tsx line 112:
`const balance = Number(student.total_tuition) - totalPaid`. -/
def balance (total_tuition : ℚ) (payments : List ℚ) : ℚ :=
  total_tuition - totalPaid payments

/-- StudentDetail.tsx lines 113-118: the status conditional
`totalPaid >= total_tuition ? "Paid" : totalPaid > 0 ? "Partial Payment" : "Unpaid"`. -/
def paymentStatus (total_tuition : ℚ) (payments : List ℚ) : PaymentStatus :=
  if totalPaid payments ≥ total_tuition then PaymentStatus.Paid
  else if totalPaid payments > 0 then PaymentStatus.PartialPayment
  else PaymentStatus.Unpaid

/-- The whole StudentDetail computation for one student: the page fetches
the payments whose student_id equals the student id (a server-side
`.eq("student_id", id)` filter) and then runs lines 111-118 on them. -/
def studentDetailStatus (payments : List Payment) (student : Student) : PaymentStatus :=
  paymentStatus student.total_tuition
    ((payments.filter (fun p => p.student_id == student.id)).map Payment.amount)

/-- Payments page (calculatePaymentStatus, lines 339-343): the record
`studentPayments[payment.student_id] = (studentPayments[payment.student_id] || 0) + Number(payment.amount)`
built by a forEach over all payments, read back with a default of 0. -/
def studentPayments (payments : List Payment) : String → ℚ :=
  payments.foldl
    (fun m payment => fun sid =>
      if sid == payment.student_id then m sid + payment.amount else m sid)
    (fun _ => 0)

/-- Payments page (calculatePaymentStatus, lines 345-359): per-student
body of the `students.map`: grouped totalPaid with default 0, then the
same status conditional as StudentDetail. -/
def paymentsPageStatus (payments : List Payment) (student : Student) : PaymentStatus :=
  if studentPayments payments student.id ≥ student.total_tuition then PaymentStatus.Paid
  else if studentPayments payments student.id > 0 then PaymentStatus.PartialPayment
  else PaymentStatus.Unpaid

/-- Payments page, lines 345-359 as a whole: each student is paired with
the grouped totalPaid and the derived status. -/
def calculatePaymentStatus (students : List Student) (payments : List Payment) :
    List (Student × ℚ × PaymentStatus) :=
  students.map (fun student =>
    (student, studentPayments payments student.id, paymentsPageStatus payments student))

/-- Payments page, line 544: the balance column rendered per row,
`Number(student.total_tuition) - student.totalPaid`. -/
def paymentsPageBalance (payments : List Payment) (student : Student) : ℚ :=
  student.total_tuition - studentPayments payments student.id

/-- Dashboard loadStats, lines 43-51: the running global sum
`totalPaid += Number(payment.amount)` over every payment row. -/
def dashboardTotalPaid (payments : List Payment) : ℚ :=
  payments.foldl (fun totalPaid payment => totalPaid + payment.amount) 0

/-- Dashboard loadStats, lines 45-51: the record
`paymentsByStudent[payment.student_id] = (paymentsByStudent[payment.student_id] || 0) + Number(payment.amount)`
built in the same forEach, read back with a default of 0. -/
def paymentsByStudent (payments : List Payment) : String → ℚ :=
  payments.foldl
    (fun m payment => fun sid =>
      if sid == payment.student_id then m sid + payment.amount else m sid)
    (fun _ => 0)

/-- Dashboard loadStats, lines 53-58: the condition under which a student
increments pendingCount: `paid < Number(student.total_tuition)` with
`paid = paymentsByStudent[student.id] || 0`. -/
def dashboardPending (payments : List Payment) (student : Student) : Bool :=
  decide (paymentsByStudent payments student.id < student.total_tuition)

/-- Dashboard loadStats, lines 53-58: `pendingCount++` for each student
satisfying the pending condition. -/
def pendingCount (students : List Student) (payments : List Payment) : Nat :=
  students.countP (fun student => dashboardPending payments student)

/-- Dashboard loadStats, lines 65-68: the raw average,
`grades.length > 0 ? grades.reduce((sum, g) => sum + Number(g.grade), 0) / grades.length : 0`. -/
def avgGrade (grades : List ℚ) : ℚ :=
  if grades.length > 0 then
    grades.foldl (fun sum g => sum + g) 0 / (grades.length : ℚ)
  else 0

/-- The JavaScript `Math.round`: nearest integer, ties toward positive
infinity, i.e. the floor of the argument plus one half. -/
def mathRound (q : ℚ) : ℤ :=
  Int.floor (q + 1 / 2)

/-- Dashboard loadStats, line 74: the stored stat
`Math.round(avgGrade * 10) / 10`. -/
def averageGrade (grades : List ℚ) : ℚ :=
  (mathRound (avgGrade grades * 10) : ℚ) / 10

/-- Dashboard statCards, line 104: the rendered value
`stats.averageGrade || "N/A"` — the stored number when it is truthy,
otherwise the sentinel (none). For a number, falsy means equal to 0. -/
def averageGradeCard (avg : ℚ) : Option ℚ :=
  if avg = 0 then none else some avg

/-- Modelled from the spec: rounding to the nearest integer with ties
away from zero, the rounding mode section 4.1 of the spec prescribes for
averageGrade. -/
def roundHalfAwayFromZero (q : ℚ) : ℤ :=
  if 0 ≤ q then Int.floor (q + 1 / 2) else -Int.floor (-q + 1 / 2)

/-- Modelled from the spec: `averageGrade(grades)` as section 4.1 words
it — the arithmetic mean rounded to one decimal place using
round-half-away-from-zero, with an explicit undefined sentinel (none)
for the empty sequence. -/
def specAverageGrade (grades : List ℚ) : Option ℚ :=
  if grades.isEmpty then none
  else some ((roundHalfAwayFromZero (grades.sum / (grades.length : ℚ) * 10) : ℚ) / 10)

theorem foldl_add_eq (l : List ℚ) (a : ℚ) :
    l.foldl (fun sum payment => sum + payment) a = a + l.sum := by
  induction l generalizing a with
  | nil => simp
  | cons x xs ih => simp [List.foldl_cons, ih (a + x), List.sum_cons]; ring

theorem totalPaid_eq_sum (l : List ℚ) : totalPaid l = l.sum := by
  simp [totalPaid, foldl_add_eq]

theorem foldl_amount_eq (l : List Payment) (a : ℚ) :
    l.foldl (fun totalPaid payment => totalPaid + payment.amount) a
      = a + (l.map Payment.amount).sum := by
  induction l generalizing a with
  | nil => simp
  | cons p ps ih => simp [List.foldl_cons, ih (a + p.amount)]; ring

theorem dashboardTotalPaid_eq_sum (l : List Payment) :
    dashboardTotalPaid l = (l.map Payment.amount).sum := by
  simp [dashboardTotalPaid, foldl_amount_eq]

theorem studentPayments_foldl_apply (payments : List Payment) (m : String → ℚ) (sid : String) :
    (payments.foldl
      (fun m payment => fun sid =>
        if sid == payment.student_id then m sid + payment.amount else m sid) m) sid
      = m sid + studentPayments payments sid := by
  induction payments generalizing m with
  | nil => simp [studentPayments]
  | cons p ps ih =>
    have hL := ih (fun s => if s == p.student_id then m s + p.amount else m s)
    have hR := ih (fun s =>
      if s == p.student_id then (fun _ : String => (0 : ℚ)) s + p.amount
      else (fun _ : String => (0 : ℚ)) s)
    simp only [studentPayments, List.foldl_cons] at *
    rw [hL, hR]
    by_cases h : sid == p.student_id
    · simp [h]
      ring
    · simp [h]

theorem studentPayments_cons (p : Payment) (ps : List Payment) (sid : String) :
    studentPayments (p :: ps) sid
      = (if sid == p.student_id then p.amount else 0) + studentPayments ps sid := by
  have h := studentPayments_foldl_apply ps
    (fun s => if s == p.student_id then (fun _ : String => (0 : ℚ)) s + p.amount
      else (fun _ : String => (0 : ℚ)) s) sid
  simp only [studentPayments, List.foldl_cons] at *
  rw [h]
  by_cases hc : sid == p.student_id
  · simp [hc]
  · simp [hc]

theorem studentPayments_eq_filter_sum (payments : List Payment) (sid : String) :
    studentPayments payments sid
      = ((payments.filter (fun p => p.student_id == sid)).map Payment.amount).sum := by
  induction payments with
  | nil => simp [studentPayments]
  | cons p ps ih =>
    rw [studentPayments_cons, ih]
    by_cases h : p.student_id = sid
    · simp [List.filter_cons, h]
    · have h1 : (p.student_id == sid) = false := by simp [h]
      have h2 : (sid == p.student_id) = false := by simp [Ne.symm h]
      simp [List.filter_cons, h1, h2]

theorem paymentsByStudent_eq_studentPayments : paymentsByStudent = studentPayments := rfl

theorem totalPaid_nil : totalPaid ([] : List ℚ) = 0 := rfl

theorem totalPaid_60_50 : totalPaid [60, 50] = 110 := by
  rw [totalPaid_eq_sum]
  norm_num

/-- C1: for every totalTuition that is at least 0 and every payment list,
the derived status follows the precedence Paid when the sum of payments
is at least totalTuition, else PartialPayment when the sum is positive,
else Unpaid; in particular a zero tuition with no payments classifies as
Paid and a positive tuition with no payments classifies as Unpaid. -/
theorem C1_paymentStatus_precedence (t : ℚ) (ps : List ℚ) (ht : 0 ≤ t) :
    (paymentStatus t ps = PaymentStatus.Paid ↔ totalPaid ps ≥ t) ∧
    (paymentStatus t ps = PaymentStatus.PartialPayment ↔
      totalPaid ps < t ∧ 0 < totalPaid ps) ∧
    (paymentStatus t ps = PaymentStatus.Unpaid ↔
      totalPaid ps < t ∧ totalPaid ps ≤ 0) ∧
    (t = 0 → paymentStatus t [] = PaymentStatus.Paid) ∧
    (0 < t → paymentStatus t [] = PaymentStatus.Unpaid) := by
  refine ⟨?_, ?_, ?_, ?_, ?_⟩
  · unfold paymentStatus
    split_ifs with h1 h2 <;> simp_all
  · unfold paymentStatus
    split_ifs with h1 h2 <;> simp_all
  · unfold paymentStatus
    split_ifs with h1 h2 <;> simp_all
  · intro h0
    subst h0
    simp [paymentStatus, totalPaid_nil]
  · intro hpos
    simp [paymentStatus, totalPaid_nil, not_le.mpr hpos, lt_irrefl]

/-- C1 witness: the theorem applied at tuition 1 and an empty payment
list yields the Unpaid classification. -/
theorem C1_witness : paymentStatus (1 : ℚ) [] = PaymentStatus.Unpaid :=
  (C1_paymentStatus_precedence 1 [] (by norm_num)).2.2.2.2 (by norm_num)

/-- C3 counterexample: at totalTuition 0 (which is nonnegative) with an
empty payment list (whose sum is 0, hence at most 0) the code classifies
Paid, not Unpaid as the claim states. -/
theorem C3_counterexample :
    (0 : ℚ) ≤ 0 ∧ totalPaid ([] : List ℚ) ≤ 0 ∧
    paymentStatus 0 [] = PaymentStatus.Paid ∧
    paymentStatus (0 : ℚ) [] ≠ PaymentStatus.Unpaid := by
  refine ⟨le_refl 0, le_of_eq totalPaid_nil, ?_, ?_⟩
  · simp [paymentStatus, totalPaid_nil]
  · simp [paymentStatus, totalPaid_nil]

/-- C3 amended: for every strictly positive totalTuition and every
payment list whose sum is at most 0, the derived status is Unpaid; when
totalTuition is 0 a payment sum of exactly 0 classifies Paid and a
strictly negative sum classifies Unpaid. -/
theorem C3_amended (t : ℚ) (ps : List ℚ) :
    (0 < t → totalPaid ps ≤ 0 → paymentStatus t ps = PaymentStatus.Unpaid) ∧
    (t = 0 → totalPaid ps = 0 → paymentStatus t ps = PaymentStatus.Paid) ∧
    (t = 0 → totalPaid ps < 0 → paymentStatus t ps = PaymentStatus.Unpaid) := by
  refine ⟨?_, ?_, ?_⟩
  · intro ht hsum
    unfold paymentStatus
    split_ifs with h1 h2
    · exfalso; linarith
    · exfalso; linarith
    · rfl
  · intro ht hsum
    subst ht
    unfold paymentStatus
    rw [if_pos (by linarith)]
  · intro ht hsum
    subst ht
    unfold paymentStatus
    split_ifs with h1 h2
    · exfalso; linarith
    · exfalso; linarith
    · rfl

/-- C3 witness: the amended theorem applied at tuition 300 with no
payments yields Unpaid. -/
theorem C3_witness : paymentStatus (300 : ℚ) [] = PaymentStatus.Unpaid :=
  (C3_amended 300 []).1 (by norm_num) (le_of_eq totalPaid_nil)

/-- C5: the balance always equals totalTuition minus the sum of all
payments with no clamping — an overshooting payment list makes it
negative — the empty list sums to 0, and the overpayment example with
tuition 100 and payments 60 and 50 yields totalPaid 110, balance -10 and
status Paid. -/
theorem C5_balance_no_clamp :
    (∀ (t : ℚ) (ps : List ℚ), balance t ps = t - totalPaid ps) ∧
    (∀ (t : ℚ) (ps : List ℚ), t < totalPaid ps → balance t ps < 0) ∧
    totalPaid ([] : List ℚ) = 0 ∧
    totalPaid [60, 50] = 110 ∧
    balance 100 [60, 50] = -10 ∧
    paymentStatus 100 [60, 50] = PaymentStatus.Paid := by
  refine ⟨fun t ps => rfl, fun t ps h => ?_, totalPaid_nil, totalPaid_60_50, ?_, ?_⟩
  · unfold balance
    linarith
  · unfold balance
    rw [totalPaid_60_50]
    norm_num
  · unfold paymentStatus
    rw [if_pos (by rw [totalPaid_60_50]; norm_num)]

/-- C5 witness: the no-clamping conjunct applied at tuition 100 and the
payment list 60, 50 makes the balance negative. -/
theorem C5_witness : balance 100 [60, 50] < 0 :=
  C5_balance_no_clamp.2.1 100 [60, 50] (by rw [totalPaid_60_50]; norm_num)

/-- C8: the payment summary is order-insensitive — permuting the payment
list leaves totalPaid, balance and status unchanged. -/
theorem C8_perm_invariant (t : ℚ) (l1 l2 : List ℚ) (h : l1.Perm l2) :
    totalPaid l1 = totalPaid l2 ∧ balance t l1 = balance t l2 ∧
    paymentStatus t l1 = paymentStatus t l2 := by
  have hs : totalPaid l1 = totalPaid l2 := by
    rw [totalPaid_eq_sum, totalPaid_eq_sum]
    exact h.sum_eq
  refine ⟨hs, ?_, ?_⟩
  · unfold balance
    rw [hs]
  · unfold paymentStatus
    rw [hs]

/-- C8 witness: the theorem applied at tuition 5 to the swapped lists
gives equal statuses. -/
theorem C8_witness : paymentStatus 5 [1, 2] = paymentStatus 5 [2, 1] :=
  (C8_perm_invariant 5 [1, 2] [2, 1] (List.Perm.swap 2 1 [])).2.2

/-- C9: for every nonnegative totalTuition and payment list exactly one
of the three statuses is produced, the status is Paid exactly when the
balance is at most 0, and a student is classified PartialPayment or
Unpaid exactly when the balance is strictly positive. -/
theorem C9_status_invariant (t : ℚ) (ps : List ℚ) (_ht : 0 ≤ t) :
    (paymentStatus t ps = PaymentStatus.Paid ∨
      paymentStatus t ps = PaymentStatus.PartialPayment ∨
      paymentStatus t ps = PaymentStatus.Unpaid) ∧
    (paymentStatus t ps = PaymentStatus.Paid ↔ balance t ps ≤ 0) ∧
    ((paymentStatus t ps = PaymentStatus.PartialPayment ∨
      paymentStatus t ps = PaymentStatus.Unpaid) ↔ 0 < balance t ps) := by
  unfold paymentStatus balance
  split_ifs with h1 h2 <;> simp_all

/-- C9 witness: the theorem applied at tuition 0 with no payments gives
the Paid classification together with a nonpositive balance. -/
theorem C9_witness : balance (0 : ℚ) [] ≤ 0 :=
  ((C9_status_invariant 0 [] (le_refl 0)).2.1).mp
    (by simp [paymentStatus, totalPaid_nil])

theorem paymentsByStudent_cons_ne (p : Payment) (payments : List Payment) (sid : String)
    (h : sid ≠ p.student_id) :
    paymentsByStudent (p :: payments) sid = paymentsByStudent payments sid := by
  rw [paymentsByStudent_eq_studentPayments, studentPayments_cons,
    if_neg (by simp [h]), zero_add]

theorem dashboardPending_cons_ne (p : Payment) (payments : List Payment) (s : Student)
    (h : s.id ≠ p.student_id) :
    dashboardPending (p :: payments) s = dashboardPending payments s := by
  unfold dashboardPending
  rw [paymentsByStudent_cons_ne p payments s.id h]

theorem studentPayments_ex_s1 :
    studentPayments [⟨"s1", (100 : ℚ)⟩, ⟨"s2", 200⟩] "s1" = 100 := by
  rw [studentPayments_cons, studentPayments_cons]
  norm_num [studentPayments, show ("s1" : String) ≠ "s2" from by decide]

theorem studentPayments_ex_s2 :
    studentPayments [⟨"s1", (100 : ℚ)⟩, ⟨"s2", 200⟩] "s2" = 200 := by
  rw [studentPayments_cons, studentPayments_cons]
  norm_num [studentPayments, show ("s2" : String) ≠ "s1" from by decide]

theorem paymentsPageStatus_ex_s1 :
    paymentsPageStatus [⟨"s1", (100 : ℚ)⟩, ⟨"s2", 200⟩] ⟨"s1", 100⟩
      = PaymentStatus.Paid := by
  show (if studentPayments [⟨"s1", (100 : ℚ)⟩, ⟨"s2", 200⟩] "s1" ≥ (100 : ℚ) then
      PaymentStatus.Paid
    else if studentPayments [⟨"s1", (100 : ℚ)⟩, ⟨"s2", 200⟩] "s1" > 0 then
      PaymentStatus.PartialPayment
    else PaymentStatus.Unpaid) = PaymentStatus.Paid
  rw [studentPayments_ex_s1]
  norm_num

theorem paymentsPageStatus_ex_s2 :
    paymentsPageStatus [⟨"s1", (100 : ℚ)⟩, ⟨"s2", 200⟩] ⟨"s2", 500⟩
      = PaymentStatus.PartialPayment := by
  show (if studentPayments [⟨"s1", (100 : ℚ)⟩, ⟨"s2", 200⟩] "s2" ≥ (500 : ℚ) then
      PaymentStatus.Paid
    else if studentPayments [⟨"s1", (100 : ℚ)⟩, ⟨"s2", 200⟩] "s2" > 0 then
      PaymentStatus.PartialPayment
    else PaymentStatus.Unpaid) = PaymentStatus.PartialPayment
  rw [studentPayments_ex_s2]
  norm_num

/-- C4: countPending groups payments by exact student-identifier
equality (summing each group, with 0 for a student with no payments) and
counts the students whose balance (totalTuition minus the grouped sum)
is strictly positive; over a Paid student and a PartialPayment student
it returns 1. -/
theorem C4_countPending :
    (∀ (payments : List Payment) (sid : String),
        paymentsByStudent payments sid
          = ((payments.filter (fun p => p.student_id == sid)).map Payment.amount).sum) ∧
    (∀ (students : List Student) (payments : List Payment),
        pendingCount students payments
          = students.countP
              (fun s => decide (0 < s.total_tuition - paymentsByStudent payments s.id))) ∧
    paymentsPageStatus [⟨"s1", (100 : ℚ)⟩, ⟨"s2", 200⟩] ⟨"s1", 100⟩
      = PaymentStatus.Paid ∧
    paymentsPageStatus [⟨"s1", (100 : ℚ)⟩, ⟨"s2", 200⟩] ⟨"s2", 500⟩
      = PaymentStatus.PartialPayment ∧
    pendingCount [⟨"s1", 100⟩, ⟨"s2", 500⟩] [⟨"s1", (100 : ℚ)⟩, ⟨"s2", 200⟩] = 1 := by
  refine ⟨?_, ?_, paymentsPageStatus_ex_s1, paymentsPageStatus_ex_s2, ?_⟩
  · intro payments sid
    rw [paymentsByStudent_eq_studentPayments]
    exact studentPayments_eq_filter_sum payments sid
  · intro students payments
    unfold pendingCount
    apply List.countP_congr
    intro s _
    unfold dashboardPending
    simp only [decide_eq_true_eq]
    exact (sub_pos).symm
  · have hA : dashboardPending [⟨"s1", (100 : ℚ)⟩, ⟨"s2", 200⟩] ⟨"s1", 100⟩ = false := by
      show decide (paymentsByStudent [⟨"s1", (100 : ℚ)⟩, ⟨"s2", 200⟩] "s1" < (100 : ℚ))
        = false
      rw [paymentsByStudent_eq_studentPayments, studentPayments_ex_s1]
      exact decide_eq_false (by norm_num)
    have hB : dashboardPending [⟨"s1", (100 : ℚ)⟩, ⟨"s2", 200⟩] ⟨"s2", 500⟩ = true := by
      show decide (paymentsByStudent [⟨"s1", (100 : ℚ)⟩, ⟨"s2", 200⟩] "s2" < (500 : ℚ))
        = true
      rw [paymentsByStudent_eq_studentPayments, studentPayments_ex_s2]
      exact decide_eq_true (by norm_num)
    unfold pendingCount
    rw [List.countP_cons, List.countP_cons, List.countP_nil, hA, hB]
    simp

/-- C6: the three inline implementations of the payment-status logic
agree — the per-student detail computation over the filtered payment
rows equals the payments-list computation over the grouped record, and
the dashboard pending predicate holds exactly when that status is
PartialPayment or Unpaid. -/
theorem C6_three_sites_agree (payments : List Payment) (s : Student) :
    studentDetailStatus payments s = paymentsPageStatus payments s ∧
    (dashboardPending payments s = true ↔
      (paymentsPageStatus payments s = PaymentStatus.PartialPayment ∨
        paymentsPageStatus payments s = PaymentStatus.Unpaid)) := by
  have hkey : totalPaid ((payments.filter (fun p => p.student_id == s.id)).map Payment.amount)
      = studentPayments payments s.id := by
    rw [totalPaid_eq_sum, studentPayments_eq_filter_sum]
  constructor
  · unfold studentDetailStatus paymentStatus paymentsPageStatus
    rw [hkey]
  · unfold dashboardPending paymentsPageStatus
    rw [paymentsByStudent_eq_studentPayments]
    split_ifs with h1 h2
    · simp [decide_eq_true_eq, not_lt.mpr h1]
    · simp [decide_eq_true_eq, not_le.mp h1]
    · simp [decide_eq_true_eq, not_le.mp h1]

/-- C10: every payment record contributes its amount to the dashboard
global payment total — also records whose student identifier matches no
student; such unmatched records never change the pending count; and a
student with no payment records is grouped to a paid total of exactly 0. -/
theorem C10_dashboard_aggregation :
    (∀ (payments : List Payment) (p : Payment),
        dashboardTotalPaid (p :: payments) = p.amount + dashboardTotalPaid payments) ∧
    (∀ (students : List Student) (payments : List Payment) (p : Payment),
        (∀ s ∈ students, s.id ≠ p.student_id) →
        pendingCount students (p :: payments) = pendingCount students payments) ∧
    (∀ (payments : List Payment) (s : Student),
        (∀ q ∈ payments, q.student_id ≠ s.id) →
        paymentsByStudent payments s.id = 0) := by
  refine ⟨?_, ?_, ?_⟩
  · intro payments p
    rw [dashboardTotalPaid_eq_sum, dashboardTotalPaid_eq_sum, List.map_cons, List.sum_cons]
  · intro students payments p
    induction students with
    | nil => intro hp; rfl
    | cons s ss ih =>
      intro hp
      have h1 := ih (fun x hx => hp x (List.mem_cons_of_mem s hx))
      unfold pendingCount at h1 ⊢
      rw [List.countP_cons, List.countP_cons, h1,
        dashboardPending_cons_ne p payments s (hp s (List.mem_cons_self s ss))]
  · intro payments s h
    rw [paymentsByStudent_eq_studentPayments, studentPayments_eq_filter_sum]
    have hnil : payments.filter (fun p => p.student_id == s.id) = [] := by
      rw [List.filter_eq_nil_iff]
      intro q hq
      simp [h q hq]
    rw [hnil]
    simp

/-- C10 witness: an unmatched payment record (student identifier z) does
not change the pending count over a single student a, and a student with
no matching payment records is grouped to 0. -/
theorem C10_witness :
    pendingCount [⟨"a", (100 : ℚ)⟩] [⟨"z", (7 : ℚ)⟩]
      = pendingCount [⟨"a", (100 : ℚ)⟩] [] ∧
    paymentsByStudent [⟨"z", (7 : ℚ)⟩] "a" = 0 := by
  constructor
  · exact C10_dashboard_aggregation.2.1 [⟨"a", 100⟩] [] ⟨"z", 7⟩
      (by
        intro s hs
        rw [List.mem_singleton] at hs
        subst hs
        simp)
  · exact C10_dashboard_aggregation.2.2 [⟨"z", 7⟩] ⟨"a", 100⟩
      (by
        intro q hq
        rw [List.mem_singleton] at hq
        subst hq
        simp)

theorem avgGrade_nil : avgGrade [] = 0 := rfl

theorem averageGrade_nil : averageGrade [] = 0 := by
  unfold averageGrade mathRound
  rw [avgGrade_nil]
  norm_num

theorem avgGrade_zero_zero : avgGrade [0, 0] = 0 := by
  unfold avgGrade
  norm_num

theorem averageGrade_zero_zero : averageGrade [0, 0] = 0 := by
  unfold averageGrade mathRound
  rw [avgGrade_zero_zero]
  norm_num

/-- C2 counterexample: averageGrade of the empty sequence returns 0, not
a sentinel distinct from zero, and a genuine computed average of 0 (two
grades of 0) is rendered by the dashboard card as the sentinel, not as
0. -/
theorem C2_counterexample :
    averageGrade [] = 0 ∧
    averageGrade [0, 0] = 0 ∧
    averageGradeCard (averageGrade [0, 0]) = none ∧
    averageGradeCard (averageGrade [0, 0]) ≠ some 0 := by
  refine ⟨averageGrade_nil, averageGrade_zero_zero, ?_, ?_⟩
  · rw [averageGrade_zero_zero]
    simp [averageGradeCard]
  · rw [averageGrade_zero_zero]
    simp [averageGradeCard]

/-- C2 amended: averageGrade of the empty sequence returns 0 rather than
a distinct sentinel; the dashboard card renders the sentinel exactly
when the stored rounded average equals 0, so the empty case is displayed
as the sentinel but a genuine computed average of 0 is displayed as the
sentinel too, not as 0. -/
theorem C2_amended :
    averageGrade [] = 0 ∧
    (∀ avg : ℚ, averageGradeCard avg = none ↔ avg = 0) ∧
    averageGradeCard (averageGrade []) = none := by
  refine ⟨averageGrade_nil, ?_, ?_⟩
  · intro avg
    unfold averageGradeCard
    split_ifs with h
    · simp [h]
    · simp [h]
  · rw [averageGrade_nil]
    simp [averageGradeCard]

theorem avgGrade_neg : avgGrade [-(3 / 20)] = -(3 / 20) := by
  unfold avgGrade
  norm_num

/-- C7 counterexample: on the single grade -0.15 the code rounds the
scaled mean -1.5 with Math.round, giving -1 and an average of -0.1,
while rounding half away from zero as the claim states gives -2 and an
average of -0.2. -/
theorem C7_counterexample :
    averageGrade [-(3 / 20)] = -(1 / 10) ∧
    specAverageGrade [-(3 / 20)] = some (-(1 / 5)) ∧
    specAverageGrade [-(3 / 20)] ≠ some (averageGrade [-(3 / 20)]) := by
  have hcode : averageGrade [-(3 / 20)] = -(1 / 10) := by
    unfold averageGrade mathRound
    rw [avgGrade_neg]
    norm_num
  have hspec : specAverageGrade [-(3 / 20)] = some (-(1 / 5)) := by
    unfold specAverageGrade roundHalfAwayFromZero
    norm_num
  refine ⟨hcode, hspec, ?_⟩
  rw [hcode, hspec]
  norm_num

/-- C7 amended: averageGrade of a non-empty sequence is the arithmetic
mean rounded to one decimal place with Math.round, the half-up rounding
toward positive infinity, which coincides with round-half-away-from-zero
whenever the mean is nonnegative; averageGrade of 80, 90, 70 is 80.0. -/
theorem C7_amended (grades : List ℚ) (hne : grades ≠ []) (hnn : 0 ≤ avgGrade grades) :
    avgGrade grades = grades.sum / (grades.length : ℚ) ∧
    averageGrade grades = (roundHalfAwayFromZero (avgGrade grades * 10) : ℚ) / 10 ∧
    averageGrade [80, 90, 70] = 80 := by
  refine ⟨?_, ?_, ?_⟩
  · unfold avgGrade
    rw [if_pos (List.length_pos.mpr hne), foldl_add_eq, zero_add]
  · unfold averageGrade roundHalfAwayFromZero mathRound
    rw [if_pos (mul_nonneg hnn (by norm_num))]
  · have h : avgGrade [80, 90, 70] = 80 := by
      unfold avgGrade
      norm_num
    unfold averageGrade mathRound
    rw [h]
    norm_num

/-- C7 witness: the amended theorem applied to the grades 80, 90, 70
evaluates the average to 80. -/
theorem C7_witness : averageGrade [80, 90, 70] = 80 :=
  (C7_amended [80, 90, 70] (by simp) (by unfold avgGrade; norm_num)).2.2

end RegistroAcademico
